import Mathlib

/-!
Verification development for the Gameboy-Emulator repository
(src/cpu.cpp, src/emulator.cpp, src/memory.cpp).

The C++ code is shallowly embedded: bytes (C++ `Byte`, unsigned char) and
16-bit words (C++ `Address` / `Byte_2`) are modelled as `Nat` with explicit
`% 256` / `% 65536` at the points where the C++ types truncate (assignment
to a `Byte`/`Address` variable, or passing an argument to a `Byte`/`Address`
parameter).  `int` intermediates that may go negative are modelled as `Int`.
The fallible memory read (an out-of-bounds `vector` access on the cartridge
ROM) is modelled with `Option`.
-/

set_option maxHeartbeats 1000000
set_option maxRecDepth 100000

/-- A C++ expression assigned to a `Byte` (unsigned char) variable or passed
to a `Byte` parameter is truncated modulo 256. -/
def toByte (n : Nat) : Nat := n % 256

/-- A C++ expression assigned to an `Address`/`Byte_2` (uint16_t) variable or
passed to such a parameter is truncated modulo 65536. -/
def toWord (n : Nat) : Nat := n % 65536

/-- Modelled from the spec: generic bit helper from the missing header
(`set_bit(value, bit)` on a byte: sets the given bit). -/
def set_bit (b n : Nat) : Nat := (b % 256 ||| (1 <<< n)) % 256

/-- Modelled from the spec: generic bit helper from the missing header
(`clear_bit(value, bit)` on a byte: clears the given bit). -/
def clear_bit (b n : Nat) : Nat := (b % 256) &&& (255 ^^^ ((1 <<< n) % 256))

/-- Modelled from the spec: generic bit helper from the missing header
(`is_bit_set(value, bit)` on a byte). -/
def is_bit_set (b n : Nat) : Bool := Nat.testBit (b % 256) n

/-- Modelled from the spec: `high_byte` of a 16-bit word, used when pushing
PC ("push PC high then low to the stack"). -/
def high_byte (w : Nat) : Nat := (w % 65536) / 256

/-- Modelled from the spec: `low_byte` of a 16-bit word. -/
def low_byte (w : Nat) : Nat := w % 256

/-- `Memory` from memory.cpp: the cartridge ROM (`CART_ROM`, a byte vector of
arbitrary length filled by the external loader) and the RAM regions allocated
in the `Memory` constructor, each modelled as a function from index to stored
byte. -/
structure Memory where
  CART_ROM : List Nat
  VRAM : Nat → Nat
  ERAM : Nat → Nat
  WRAM : Nat → Nat
  OAM  : Nat → Nat
  ZRAM : Nat → Nat

/-- `MemoryRegister::get`: reads the byte a register points at.  The
registers all live in ZRAM (TIMA at 0x05, TMA 0x06, TAC 0x07, LCDC 0x40,
LYC 0x45, IE 0xFF, ... per the constructor; DIV at 0x04, IF at 0x0F,
STAT at 0x41 and LY at 0x44 are declared in the missing memory.h and are
modelled from the MMIO table of the spec). -/
def Memory.zget (m : Memory) (i : Nat) : Nat := m.ZRAM i % 256

/-- `MemoryRegister::set`: stores a byte at the ZRAM cell a register points
at (the `Byte data` parameter truncates). -/
def Memory.zset (m : Memory) (i v : Nat) : Memory :=
  { m with ZRAM := fun j => if j = i then v % 256 else m.ZRAM j }

/-- `Memory::read` (memory.cpp lines 66-122).  Dispatches on the top nibble
of the (uint16) address exactly as the C++ switch does.  The ROM cases index
`CART_ROM[location]` with no bounds check; an out-of-bounds vector access has
no defined result and is modelled as `none`.  All other cases return a byte. -/
def Memory.read (m : Memory) (location0 : Nat) : Option Nat :=
  let location := toWord location0
  let hi := location &&& 0xF000
  if hi = 0x0000 ∨ hi = 0x1000 ∨ hi = 0x2000 ∨ hi = 0x3000 then
    (m.CART_ROM.get? location).map toByte
  else if hi = 0x4000 ∨ hi = 0x5000 ∨ hi = 0x6000 ∨ hi = 0x7000 then
    (m.CART_ROM.get? location).map toByte
  else if hi = 0x8000 ∨ hi = 0x9000 then
    some (toByte (m.VRAM (location &&& 0x1FFF)))
  else if hi = 0xA000 ∨ hi = 0xB000 then
    some (toByte (m.ERAM (location &&& 0x1FFF)))
  else if hi = 0xC000 ∨ hi = 0xD000 ∨ hi = 0xE000 then
    some (toByte (m.WRAM (location &&& 0x1FFF)))
  else
    let mid := location &&& 0x0F00
    if mid = 0x000 ∨ mid = 0x100 ∨ mid = 0x200 ∨ mid = 0x300 ∨
       mid = 0x400 ∨ mid = 0x500 ∨ mid = 0x600 ∨ mid = 0x700 ∨
       mid = 0x800 ∨ mid = 0x900 ∨ mid = 0xA00 ∨ mid = 0xB00 ∨
       mid = 0xC00 ∨ mid = 0xD00 then
      some (toByte (m.WRAM (location &&& 0x1FFF)))
    else if mid = 0xE00 then
      if location < 0xFEA0 then some (toByte (m.OAM (location &&& 0xFF)))
      else some 0
    else
      some (toByte (m.ZRAM (location &&& 0xFF)))

/-- `Memory::write` (memory.cpp lines 124-190).  Writes to the ROM ranges are
silently dropped; the other regions store the (truncated) data byte. -/
def Memory.write (m : Memory) (location0 data0 : Nat) : Memory :=
  let location := toWord location0
  let data := toByte data0
  let hi := location &&& 0xF000
  if hi = 0x0000 ∨ hi = 0x1000 ∨ hi = 0x2000 ∨ hi = 0x3000 then m
  else if hi = 0x4000 ∨ hi = 0x5000 ∨ hi = 0x6000 ∨ hi = 0x7000 then m
  else if hi = 0x8000 ∨ hi = 0x9000 then
    { m with VRAM := fun j => if j = (location &&& 0x1FFF) then data else m.VRAM j }
  else if hi = 0xA000 ∨ hi = 0xB000 then
    { m with ERAM := fun j => if j = (location &&& 0x1FFF) then data else m.ERAM j }
  else if hi = 0xC000 ∨ hi = 0xD000 ∨ hi = 0xE000 then
    { m with WRAM := fun j => if j = (location &&& 0x1FFF) then data else m.WRAM j }
  else
    let mid := location &&& 0x0F00
    if mid = 0x000 ∨ mid = 0x100 ∨ mid = 0x200 ∨ mid = 0x300 ∨
       mid = 0x400 ∨ mid = 0x500 ∨ mid = 0x600 ∨ mid = 0x700 ∨
       mid = 0x800 ∨ mid = 0x900 ∨ mid = 0xA00 ∨ mid = 0xB00 ∨
       mid = 0xC00 ∨ mid = 0xD00 then
      { m with WRAM := fun j => if j = (location &&& 0x1FFF) then data else m.WRAM j }
    else if mid = 0xE00 then
      if location < 0xFEA0 then
        { m with OAM := fun j => if j = (location &&& 0xFF) then data else m.OAM j }
      else m
    else
      { m with ZRAM := fun j => if j = (location &&& 0xFF) then data else m.ZRAM j }

/-- The memory produced by the `Memory::Memory()` constructor: all regions
zeroed, then the post-BIOS defaults written through the memory registers
(LCDC=0x91, BGP=0xFC, OBP0=OBP1=0xFF, everything else written as 0). -/
def initMemory : Memory :=
  { CART_ROM := []
    VRAM := fun _ => 0
    ERAM := fun _ => 0
    WRAM := fun _ => 0
    OAM := fun _ => 0
    ZRAM := fun i =>
      if i = 0x40 then 0x91
      else if i = 0x47 then 0xFC
      else if i = 0x48 then 0xFF
      else if i = 0x49 then 0xFF
      else 0 }

-- Mask characterisations used to reason about the address dispatch.

lemma and_1FFF (a : Nat) : a &&& 0x1FFF = a % 8192 := by
  have h : (0x1FFF : Nat) = 2 ^ 13 - 1 := by norm_num
  rw [h, Nat.and_pow_two_sub_one_eq_mod]

lemma and_FF (a : Nat) : a &&& 0xFF = a % 256 := by
  have h : (0xFF : Nat) = 2 ^ 8 - 1 := by norm_num
  rw [h, Nat.and_pow_two_sub_one_eq_mod]

lemma and_F000 (a : Nat) : a &&& 0xF000 = a / 4096 % 16 * 4096 := by
  apply Nat.eq_of_testBit_eq
  intro i
  have hR : a / 4096 % 16 * 4096 = (a / 2 ^ 12 % 2 ^ 4) <<< 12 := by
    rw [Nat.shiftLeft_eq]; norm_num
  rcases Nat.lt_or_ge i 12 with h | h
  · have h1 : Nat.testBit 0xF000 i = false := by interval_cases i <;> decide
    rw [Nat.testBit_and, h1, Bool.and_false, hR, Nat.testBit_shiftLeft]
    simp [Nat.not_le.mpr h]
  · rcases Nat.lt_or_ge i 16 with h2 | h2
    · have h1 : Nat.testBit 0xF000 i = true := by interval_cases i <;> decide
      rw [Nat.testBit_and, h1, Bool.and_true, hR, Nat.testBit_shiftLeft,
        decide_eq_true h, Bool.true_and, Nat.testBit_mod_two_pow]
      have h3 : i - 12 < 4 := by omega
      rw [decide_eq_true h3, Bool.true_and, ← Nat.shiftRight_eq_div_pow,
        Nat.testBit_shiftRight]
      congr 1
      omega
    · have h1 : Nat.testBit 0xF000 i = false := by
        apply Nat.testBit_lt_two_pow
        calc (0xF000 : Nat) < 2 ^ 16 := by norm_num
        _ ≤ 2 ^ i := Nat.pow_le_pow_right (by norm_num) h2
      rw [Nat.testBit_and, h1, Bool.and_false]
      have h3 : a / 4096 % 16 * 4096 < 2 ^ i := by
        calc a / 4096 % 16 * 4096 < 16 * 4096 := by
              have := Nat.mod_lt (a / 4096) (show 0 < 16 by norm_num)
              omega
        _ ≤ 2 ^ i := by
              calc (16 * 4096 : Nat) = 2 ^ 16 := by norm_num
              _ ≤ 2 ^ i := Nat.pow_le_pow_right (by norm_num) h2
      exact (Nat.testBit_lt_two_pow h3).symm

lemma and_0F00 (a : Nat) : a &&& 0x0F00 = a / 256 % 16 * 256 := by
  apply Nat.eq_of_testBit_eq
  intro i
  have hR : a / 256 % 16 * 256 = (a / 2 ^ 8 % 2 ^ 4) <<< 8 := by
    rw [Nat.shiftLeft_eq]; norm_num
  rcases Nat.lt_or_ge i 8 with h | h
  · have h1 : Nat.testBit 0x0F00 i = false := by interval_cases i <;> decide
    rw [Nat.testBit_and, h1, Bool.and_false, hR, Nat.testBit_shiftLeft]
    simp [Nat.not_le.mpr h]
  · rcases Nat.lt_or_ge i 12 with h2 | h2
    · have h1 : Nat.testBit 0x0F00 i = true := by interval_cases i <;> decide
      rw [Nat.testBit_and, h1, Bool.and_true, hR, Nat.testBit_shiftLeft,
        decide_eq_true h, Bool.true_and, Nat.testBit_mod_two_pow]
      have h3 : i - 8 < 4 := by omega
      rw [decide_eq_true h3, Bool.true_and, ← Nat.shiftRight_eq_div_pow,
        Nat.testBit_shiftRight]
      congr 1
      omega
    · have h1 : Nat.testBit 0x0F00 i = false := by
        apply Nat.testBit_lt_two_pow
        calc (0x0F00 : Nat) < 2 ^ 12 := by norm_num
        _ ≤ 2 ^ i := Nat.pow_le_pow_right (by norm_num) h2
      rw [Nat.testBit_and, h1, Bool.and_false]
      have h3 : a / 256 % 16 * 256 < 2 ^ i := by
        calc a / 256 % 16 * 256 < 16 * 256 := by
              have := Nat.mod_lt (a / 256) (show 0 < 16 by norm_num)
              omega
        _ ≤ 2 ^ i := by
              calc (16 * 256 : Nat) = 2 ^ 12 := by norm_num
              _ ≤ 2 ^ i := Nat.pow_le_pow_right (by norm_num) h2
      exact (Nat.testBit_lt_two_pow h3).symm

-- Region lemmas: addresses 0xC000-0xFDFF (WRAM plus the echo region) read
-- and write the WRAM cell indexed by the address modulo 0x2000.

lemma read_wram_range (m : Memory) (a : Nat) (h1 : 0xC000 ≤ a) (h2 : a ≤ 0xFDFF) :
    Memory.read m a = some (m.WRAM (a % 8192) % 256) := by
  have ha : a % 65536 = a := Nat.mod_eq_of_lt (by omega)
  simp only [Memory.read, toWord, toByte, ha, and_F000, and_0F00, and_1FFF]
  split_ifs <;> first | rfl | omega

lemma write_wram_range (m : Memory) (a v j : Nat) (h1 : 0xC000 ≤ a) (h2 : a ≤ 0xFDFF) :
    (Memory.write m a v).WRAM j = if j = a % 8192 then v % 256 else m.WRAM j := by
  have ha : a % 65536 = a := Nat.mod_eq_of_lt (by omega)
  simp only [Memory.write, toWord, toByte, ha, and_F000, and_0F00, and_1FFF]
  split_ifs <;> first | omega | simp_all

/-- The CPU register file from cpu.h / cpu.cpp: eight byte registers, the
16-bit SP and PC, the interrupt master enable flag used by the interrupt
controller, and the cycle counter `num_cycles` that emulator.cpp reads
(cpu.cpp never assigns it). -/
structure CPU where
  reg_A : Nat
  reg_B : Nat
  reg_C : Nat
  reg_D : Nat
  reg_E : Nat
  reg_F : Nat
  reg_H : Nat
  reg_L : Nat
  reg_SP : Nat
  reg_PC : Nat
  interrupt_master_enable : Bool
  num_cycles : Int

/-- `CPU::init`: registers zeroed, SP = 0xFFFE and (despite the comment
claiming $100) PC = 0.  IME and num_cycles are declared in the missing cpu.h;
they are taken as false / 0 here. -/
def CPU.init : CPU :=
  { reg_A := 0, reg_B := 0, reg_C := 0, reg_D := 0, reg_E := 0, reg_F := 0
    reg_H := 0, reg_L := 0, reg_SP := 0xFFFE, reg_PC := 0
    interrupt_master_enable := false, num_cycles := 0 }

/-- Modelled from the spec: the flag bit positions from the missing cpu.h
(Z bit 7, N bit 6, H bit 5, C bit 4 of F). -/
def FLAG_ZERO : Nat := 0x80

/-- Modelled from the spec: subtract flag, bit 6 of F. -/
def FLAG_SUB : Nat := 0x40

/-- Modelled from the spec: half-carry flag, bit 5 of F. -/
def FLAG_HALF_CARRY : Nat := 0x20

/-- Modelled from the spec: carry flag, bit 4 of F. -/
def FLAG_CARRY : Nat := 0x10

/-- `CPU::set_flag`: or the flag into F, or mask it out (`reg_F &= ~flag`,
on the byte register). -/
def CPU.set_flag (flag : Nat) (value : Bool) (F : Nat) : Nat :=
  if value then (F % 256 ||| flag) % 256 else (F % 256) &&& (255 ^^^ flag % 256)

/-- `CPU::address(Byte high, Byte low)`: `(high << 8 | low)`. -/
def CPU.address (high low : Nat) : Nat := (toByte high) <<< 8 ||| (toByte low)

/-- `CPU::high_reg_pair`. -/
def CPU.high_reg_pair (reg_pair : Nat) : Nat := ((toWord reg_pair) >>> 8) &&& 0xFF

/-- `CPU::low_reg_pair`. -/
def CPU.low_reg_pair (reg_pair : Nat) : Nat := toByte (toWord reg_pair)

/-- `CPU::dec_reg_pair`: decrement the 16-bit pair (uint16 wrap-around) and
return the new high and low bytes. -/
def CPU.dec_reg_pair (high low : Nat) : Nat × Nat :=
  let addr := (CPU.address high low + 65535) % 65536
  (CPU.high_reg_pair addr, CPU.low_reg_pair addr)

/-- `CPU::inc_reg_pair`. -/
def CPU.inc_reg_pair (high low : Nat) : Nat × Nat :=
  let addr := (CPU.address high low + 1) % 65536
  (((addr >>> 8) &&& 0xFF), toByte addr)

/-- `CPU::ADD(Byte &target, Byte value)` (cpu.cpp lines 401-411): the flag
byte is computed from the untruncated `int result = target + value` (so the
zero flag tests the un-wrapped sum), then the byte register wraps.  Returns
the new (target, F). -/
def CPU.ADD (target value F : Nat) : Nat × Nat :=
  let t := toByte target
  let v := toByte value
  let result : Int := (t : Int) + (v : Int)
  let F := CPU.set_flag FLAG_ZERO (result = 0) F
  let F := CPU.set_flag FLAG_SUB false F
  let F := CPU.set_flag FLAG_HALF_CARRY ((((t &&& 0xF) + (v &&& 0xF)) &&& 0x10) ≠ 0) F
  let F := CPU.set_flag FLAG_CARRY (result > 0xFF) F
  ((t + v) % 256, F)

/-- `CPU::ADDC`: reads the carry out of F, performs `ADD` (which rewrites all
flags), then adds the carry to the target without touching the flags. -/
def CPU.ADDC (target value F : Nat) : Nat × Nat :=
  let carry : Nat := if F % 256 &&& FLAG_CARRY ≠ 0 then 1 else 0
  let p := CPU.ADD target value F
  ((p.1 + carry) % 256, p.2)

/-- `CPU::SUB` (cpu.cpp lines 432-444): flags from the signed
`int result = target - value`; the byte register wraps on `target -= value`. -/
def CPU.SUB (target value F : Nat) : Nat × Nat :=
  let t := toByte target
  let v := toByte value
  let result : Int := (t : Int) - (v : Int)
  let F := CPU.set_flag FLAG_ZERO (result = 0) F
  let F := CPU.set_flag FLAG_SUB true F
  let F := CPU.set_flag FLAG_HALF_CARRY ((((t &&& 0xF : Nat) : Int)) - ((v &&& 0xF : Nat) : Int) < 0) F
  let F := CPU.set_flag FLAG_CARRY (result < 0) F
  ((t + 256 - v) % 256, F)

/-- `CPU::SUBC` (cpu.cpp lines 452-457): reads the carry, calls `SUB` (which
computes all flags from `target - value` alone), then subtracts the carry
from the target without updating any flag. -/
def CPU.SUBC (target value F : Nat) : Nat × Nat :=
  let carry : Nat := if F % 256 &&& FLAG_CARRY ≠ 0 then 1 else 0
  let p := CPU.SUB target value F
  ((p.1 + 256 - carry) % 256, p.2)

/-- `CPU::AND`: target is updated first, flags computed from the result. -/
def CPU.AND (target value F : Nat) : Nat × Nat :=
  let t := (toByte target) &&& (toByte value)
  let F := CPU.set_flag FLAG_ZERO (t = 0) F
  let F := CPU.set_flag FLAG_SUB false F
  let F := CPU.set_flag FLAG_HALF_CARRY true F
  let F := CPU.set_flag FLAG_CARRY false F
  (t, F)

/-- `CPU::OR`. -/
def CPU.OR (target value F : Nat) : Nat × Nat :=
  let t := (toByte target) ||| (toByte value)
  let F := CPU.set_flag FLAG_ZERO (t = 0) F
  let F := CPU.set_flag FLAG_SUB false F
  let F := CPU.set_flag FLAG_HALF_CARRY false F
  let F := CPU.set_flag FLAG_CARRY false F
  (t, F)

/-- `CPU::XOR` (the byte overload). -/
def CPU.XOR (target value F : Nat) : Nat × Nat :=
  let t := (toByte target) ^^^ (toByte value)
  let F := CPU.set_flag FLAG_ZERO (t = 0) F
  let F := CPU.set_flag FLAG_SUB false F
  let F := CPU.set_flag FLAG_HALF_CARRY false F
  let F := CPU.set_flag FLAG_CARRY false F
  (t, F)

/-- `CPU::CP`: the subtraction flags of `SUB` with the result discarded. -/
def CPU.CP (target value F : Nat) : Nat :=
  let t := toByte target
  let v := toByte value
  let result : Int := (t : Int) - (v : Int)
  let F := CPU.set_flag FLAG_ZERO (result = 0) F
  let F := CPU.set_flag FLAG_SUB true F
  let F := CPU.set_flag FLAG_HALF_CARRY ((((t &&& 0xF : Nat) : Int)) - ((v &&& 0xF : Nat) : Int) < 0) F
  let F := CPU.set_flag FLAG_CARRY (result < 0) F
  F

/-- `CPU::INC(Byte &target)`: the zero flag tests the un-truncated
`int result = target + 1` (never zero), the carry flag is left alone. -/
def CPU.INC (target F : Nat) : Nat × Nat :=
  let t := toByte target
  let result : Int := (t : Int) + 1
  let F := CPU.set_flag FLAG_ZERO (result = 0) F
  let F := CPU.set_flag FLAG_SUB false F
  let F := CPU.set_flag FLAG_HALF_CARRY ((((t &&& 0xF) + 1) &&& 0x10) ≠ 0) F
  ((t + 1) % 256, F)

/-- `CPU::DEC(Byte &target)`. -/
def CPU.DEC (target F : Nat) : Nat × Nat :=
  let t := toByte target
  let result : Int := (t : Int) - 1
  let F := CPU.set_flag FLAG_ZERO (result = 0) F
  let F := CPU.set_flag FLAG_SUB true F
  let F := CPU.set_flag FLAG_HALF_CARRY ((((t &&& 0xF : Nat) : Int)) - 1 < 0) F
  ((t + 255) % 256, F)

/-- `CPU::PUSH(Byte high, Byte low)` (cpu.cpp lines 387-391): write high at
--SP, then low at --SP (uint16 wrap-around on SP). -/
def CPU.PUSH (high low : Nat) (c : CPU) (m : Memory) : CPU × Memory :=
  let sp1 := (c.reg_SP + 65535) % 65536
  let m := m.write sp1 high
  let sp2 := (sp1 + 65535) % 65536
  let m := m.write sp2 low
  ({ c with reg_SP := sp2 }, m)

/-- `CPU::POP(Byte &high, Byte &low)` (cpu.cpp lines 393-397): low from [SP],
high from [SP+1], SP incremented twice.  Returns (high, low, new CPU). -/
def CPU.POP (c : CPU) (m : Memory) : Option (Nat × Nat × CPU) := do
  let low ← m.read c.reg_SP
  let high ← m.read ((c.reg_SP + 1) % 65536)
  some (high, low, { c with reg_SP := (c.reg_SP + 2) % 65536 })

/-- `CPU::parse_opcode` (cpu.cpp lines 98-334).  Before the switch the
function overwrites `reg_H` with the constant `addr1 = 0b00000000` and
`reg_L` with `addr2 = 0b00000101`, and all immediate operands are the
hard-coded locals `value = value2 = 200` (no memory fetch at PC+1/PC+2).
Returns the new CPU, the new memory and `opbytes`; `none` models an
out-of-bounds `CART_ROM` access inside a memory read. -/
def CPU.parse_opcode (code : Nat) (c0 : CPU) (m : Memory) : Option (CPU × Memory × Nat) :=
  let value : Nat := 200
  let value2 : Nat := 200
  let addr1 : Nat := 0b00000000
  let addr2 : Nat := 0b00000101
  let c : CPU := { c0 with reg_H := addr1, reg_L := addr2 }
  if code = 0x06 then
    some ({ c with reg_B := value }, m, 2)
  else if code = 0x0E then
    some ({ c with reg_C := value }, m, 2)
  else if code = 0x16 then
    some ({ c with reg_D := value }, m, 2)
  else if code = 0x1E then
    some ({ c with reg_E := value }, m, 2)
  else if code = 0x26 then
    some ({ c with reg_H := value }, m, 2)
  else if code = 0x2E then
    some ({ c with reg_L := value }, m, 2)
  else if code = 0x7F then
    some ({ c with reg_A := c.reg_A }, m, 1)
  else if code = 0x78 then
    some ({ c with reg_A := c.reg_B }, m, 1)
  else if code = 0x79 then
    some ({ c with reg_A := c.reg_C }, m, 1)
  else if code = 0x7A then
    some ({ c with reg_A := c.reg_D }, m, 1)
  else if code = 0x7B then
    some ({ c with reg_A := c.reg_E }, m, 1)
  else if code = 0x7C then
    some ({ c with reg_A := c.reg_H }, m, 1)
  else if code = 0x7D then
    some ({ c with reg_A := c.reg_L }, m, 1)
  else if code = 0x7E then
    (m.read (CPU.address c.reg_H c.reg_L)).map fun v => ({ c with reg_A := v }, m, 1)
  else if code = 0x40 then
    some ({ c with reg_B := c.reg_B }, m, 1)
  else if code = 0x41 then
    some ({ c with reg_B := c.reg_C }, m, 1)
  else if code = 0x42 then
    some ({ c with reg_B := c.reg_D }, m, 1)
  else if code = 0x43 then
    some ({ c with reg_B := c.reg_E }, m, 1)
  else if code = 0x44 then
    some ({ c with reg_B := c.reg_H }, m, 1)
  else if code = 0x45 then
    some ({ c with reg_B := c.reg_L }, m, 1)
  else if code = 0x46 then
    (m.read (CPU.address c.reg_H c.reg_L)).map fun v => ({ c with reg_B := v }, m, 1)
  else if code = 0x48 then
    some ({ c with reg_C := c.reg_B }, m, 1)
  else if code = 0x49 then
    some ({ c with reg_C := c.reg_C }, m, 1)
  else if code = 0x4A then
    some ({ c with reg_C := c.reg_D }, m, 1)
  else if code = 0x4B then
    some ({ c with reg_C := c.reg_E }, m, 1)
  else if code = 0x4C then
    some ({ c with reg_C := c.reg_H }, m, 1)
  else if code = 0x4D then
    some ({ c with reg_C := c.reg_L }, m, 1)
  else if code = 0x4E then
    (m.read (CPU.address c.reg_H c.reg_L)).map fun v => ({ c with reg_C := v }, m, 1)
  else if code = 0x50 then
    some ({ c with reg_D := c.reg_B }, m, 1)
  else if code = 0x51 then
    some ({ c with reg_D := c.reg_C }, m, 1)
  else if code = 0x52 then
    some ({ c with reg_D := c.reg_D }, m, 1)
  else if code = 0x53 then
    some ({ c with reg_D := c.reg_E }, m, 1)
  else if code = 0x54 then
    some ({ c with reg_D := c.reg_H }, m, 1)
  else if code = 0x55 then
    some ({ c with reg_D := c.reg_L }, m, 1)
  else if code = 0x56 then
    (m.read (CPU.address c.reg_H c.reg_L)).map fun v => ({ c with reg_D := v }, m, 1)
  else if code = 0x58 then
    some ({ c with reg_E := c.reg_B }, m, 1)
  else if code = 0x59 then
    some ({ c with reg_E := c.reg_C }, m, 1)
  else if code = 0x5A then
    some ({ c with reg_E := c.reg_D }, m, 1)
  else if code = 0x5B then
    some ({ c with reg_E := c.reg_E }, m, 1)
  else if code = 0x5C then
    some ({ c with reg_E := c.reg_H }, m, 1)
  else if code = 0x5D then
    some ({ c with reg_E := c.reg_L }, m, 1)
  else if code = 0x5E then
    (m.read (CPU.address c.reg_H c.reg_L)).map fun v => ({ c with reg_E := v }, m, 1)
  else if code = 0x60 then
    some ({ c with reg_H := c.reg_B }, m, 1)
  else if code = 0x61 then
    some ({ c with reg_H := c.reg_C }, m, 1)
  else if code = 0x62 then
    some ({ c with reg_H := c.reg_D }, m, 1)
  else if code = 0x63 then
    some ({ c with reg_H := c.reg_E }, m, 1)
  else if code = 0x64 then
    some ({ c with reg_H := c.reg_H }, m, 1)
  else if code = 0x65 then
    some ({ c with reg_H := c.reg_L }, m, 1)
  else if code = 0x66 then
    (m.read (CPU.address c.reg_H c.reg_L)).map fun v => ({ c with reg_H := v }, m, 1)
  else if code = 0x68 then
    some ({ c with reg_L := c.reg_B }, m, 1)
  else if code = 0x69 then
    some ({ c with reg_L := c.reg_C }, m, 1)
  else if code = 0x6A then
    some ({ c with reg_L := c.reg_D }, m, 1)
  else if code = 0x6B then
    some ({ c with reg_L := c.reg_E }, m, 1)
  else if code = 0x6C then
    some ({ c with reg_L := c.reg_H }, m, 1)
  else if code = 0x6D then
    some ({ c with reg_L := c.reg_L }, m, 1)
  else if code = 0x6E then
    (m.read (CPU.address c.reg_H c.reg_L)).map fun v => ({ c with reg_L := v }, m, 1)
  else if code = 0x70 then
    some (c, m.write (CPU.address c.reg_H c.reg_L) c.reg_B, 1)
  else if code = 0x71 then
    some (c, m.write (CPU.address c.reg_H c.reg_L) c.reg_C, 1)
  else if code = 0x72 then
    some (c, m.write (CPU.address c.reg_H c.reg_L) c.reg_D, 1)
  else if code = 0x73 then
    some (c, m.write (CPU.address c.reg_H c.reg_L) c.reg_E, 1)
  else if code = 0x74 then
    some (c, m.write (CPU.address c.reg_H c.reg_L) c.reg_H, 1)
  else if code = 0x75 then
    some (c, m.write (CPU.address c.reg_H c.reg_L) c.reg_L, 1)
  else if code = 0x36 then
    some (c, m.write (CPU.address c.reg_H c.reg_L) value, 2)
  else if code = 0x0A then
    (m.read (CPU.address c.reg_B c.reg_C)).map fun v => ({ c with reg_A := v }, m, 1)
  else if code = 0x1A then
    (m.read (CPU.address c.reg_D c.reg_E)).map fun v => ({ c with reg_A := v }, m, 1)
  else if code = 0xFA then
    (m.read (CPU.address value2 value)).map fun v => ({ c with reg_A := v }, m, 3)
  else if code = 0x47 then
    some ({ c with reg_B := c.reg_A }, m, 1)
  else if code = 0x4F then
    some ({ c with reg_C := c.reg_A }, m, 1)
  else if code = 0x57 then
    some ({ c with reg_D := c.reg_A }, m, 1)
  else if code = 0x5F then
    some ({ c with reg_E := c.reg_A }, m, 1)
  else if code = 0x67 then
    some ({ c with reg_H := c.reg_A }, m, 1)
  else if code = 0x6F then
    some ({ c with reg_L := c.reg_A }, m, 1)
  else if code = 0x02 then
    some (c, m.write (CPU.address c.reg_B c.reg_C) c.reg_A, 1)
  else if code = 0x12 then
    some (c, m.write (CPU.address c.reg_D c.reg_E) c.reg_A, 1)
  else if code = 0x77 then
    some (c, m.write (CPU.address c.reg_H c.reg_L) c.reg_A, 1)
  else if code = 0xEA then
    some (c, m.write (CPU.address value2 value) c.reg_A, 3)
  else if code = 0xF2 then
    (m.read (0xFF00 + c.reg_C)).map fun v => ({ c with reg_A := v }, m, 1)
  else if code = 0xE2 then
    some (c, m.write (0xFF00 + c.reg_C) c.reg_A, 1)
  else if code = 0x3A then
    (m.read (CPU.address c.reg_H c.reg_L)).map fun v =>
      let d := CPU.dec_reg_pair c.reg_H c.reg_L
      ({ c with reg_A := v, reg_H := d.1, reg_L := d.2 }, m, 1)
  else if code = 0x32 then
      let m1 := m.write (CPU.address c.reg_H c.reg_L) c.reg_A
      let d := CPU.dec_reg_pair c.reg_H c.reg_L
      some ({ c with reg_H := d.1, reg_L := d.2 }, m1, 1)
  else if code = 0x2A then
    (m.read (CPU.address c.reg_H c.reg_L)).map fun v =>
      let d := CPU.inc_reg_pair c.reg_H c.reg_L
      ({ c with reg_A := v, reg_H := d.1, reg_L := d.2 }, m, 1)
  else if code = 0x22 then
      let m1 := m.write (CPU.address c.reg_H c.reg_L) c.reg_A
      let d := CPU.inc_reg_pair c.reg_H c.reg_L
      some ({ c with reg_H := d.1, reg_L := d.2 }, m1, 1)
  else if code = 0xE0 then
    some (c, m.write (0xFF00 + value) c.reg_A, 1)
  else if code = 0xF0 then
    (m.read (0xFF00 + value)).map fun v => ({ c with reg_A := v }, m, 1)
  else if code = 0x01 then
    some ({ c with reg_B := value2, reg_C := value }, m, 3)
  else if code = 0x11 then
    some ({ c with reg_D := value2, reg_E := value }, m, 3)
  else if code = 0x21 then
    some ({ c with reg_H := value2, reg_L := value }, m, 3)
  else if code = 0x31 then
    some ({ c with reg_SP := CPU.address value2 value }, m, 3)
  else if code = 0xF9 then
    some ({ c with reg_SP := CPU.address c.reg_H c.reg_L }, m, 1)
  else if code = 0xF8 then
      let w := toWord (c.reg_SP + value)
      let F1 := CPU.set_flag FLAG_ZERO false c.reg_F
      let F2 := CPU.set_flag FLAG_SUB false F1
      some ({ c with reg_H := CPU.high_reg_pair w, reg_L := CPU.low_reg_pair w, reg_F := F2 }, m, 2)
  else if code = 0x08 then
      let dest := CPU.address value2 value
      let m1 := m.write dest (CPU.low_reg_pair c.reg_SP)
      let m2 := m1.write ((dest + 1) % 65536) (CPU.high_reg_pair c.reg_SP)
      some (c, m2, 3)
  else if code = 0xF5 then
    let p := CPU.PUSH c.reg_A c.reg_F c m; some (p.1, p.2, 1)
  else if code = 0xC5 then
    let p := CPU.PUSH c.reg_B c.reg_C c m; some (p.1, p.2, 1)
  else if code = 0xD5 then
    let p := CPU.PUSH c.reg_D c.reg_E c m; some (p.1, p.2, 1)
  else if code = 0xE5 then
    let p := CPU.PUSH c.reg_H c.reg_L c m; some (p.1, p.2, 1)
  else if code = 0xF1 then
    (CPU.POP c m).map fun x => ({ x.2.2 with reg_A := x.1, reg_F := x.2.1 }, m, 1)
  else if code = 0xC1 then
    (CPU.POP c m).map fun x => ({ x.2.2 with reg_B := x.1, reg_C := x.2.1 }, m, 1)
  else if code = 0xD1 then
    (CPU.POP c m).map fun x => ({ x.2.2 with reg_D := x.1, reg_E := x.2.1 }, m, 1)
  else if code = 0xE1 then
    (CPU.POP c m).map fun x => ({ x.2.2 with reg_H := x.1, reg_L := x.2.1 }, m, 1)
  else if code = 0x87 then
    let p := CPU.ADD c.reg_A c.reg_A c.reg_F
    some ({ c with reg_A := p.1, reg_F := p.2 }, m, 1)
  else if code = 0x80 then
    let p := CPU.ADD c.reg_A c.reg_B c.reg_F
    some ({ c with reg_A := p.1, reg_F := p.2 }, m, 1)
  else if code = 0x81 then
    let p := CPU.ADD c.reg_A c.reg_C c.reg_F
    some ({ c with reg_A := p.1, reg_F := p.2 }, m, 1)
  else if code = 0x82 then
    let p := CPU.ADD c.reg_A c.reg_D c.reg_F
    some ({ c with reg_A := p.1, reg_F := p.2 }, m, 1)
  else if code = 0x83 then
    let p := CPU.ADD c.reg_A c.reg_E c.reg_F
    some ({ c with reg_A := p.1, reg_F := p.2 }, m, 1)
  else if code = 0x84 then
    let p := CPU.ADD c.reg_A c.reg_H c.reg_F
    some ({ c with reg_A := p.1, reg_F := p.2 }, m, 1)
  else if code = 0x85 then
    let p := CPU.ADD c.reg_A c.reg_L c.reg_F
    some ({ c with reg_A := p.1, reg_F := p.2 }, m, 1)
  else if code = 0x86 then
    (m.read (CPU.address c.reg_H c.reg_L)).map fun v =>
            let p := CPU.ADD c.reg_A v c.reg_F
            ({ c with reg_A := p.1, reg_F := p.2 }, m, 1)
  else if code = 0xC6 then
    let p := CPU.ADD c.reg_A value c.reg_F
    some ({ c with reg_A := p.1, reg_F := p.2 }, m, 2)
  else if code = 0x8F then
    let p := CPU.ADDC c.reg_A c.reg_A c.reg_F
    some ({ c with reg_A := p.1, reg_F := p.2 }, m, 1)
  else if code = 0x88 then
    let p := CPU.ADDC c.reg_A c.reg_B c.reg_F
    some ({ c with reg_A := p.1, reg_F := p.2 }, m, 1)
  else if code = 0x89 then
    let p := CPU.ADDC c.reg_A c.reg_C c.reg_F
    some ({ c with reg_A := p.1, reg_F := p.2 }, m, 1)
  else if code = 0x8A then
    let p := CPU.ADDC c.reg_A c.reg_D c.reg_F
    some ({ c with reg_A := p.1, reg_F := p.2 }, m, 1)
  else if code = 0x8B then
    let p := CPU.ADDC c.reg_A c.reg_E c.reg_F
    some ({ c with reg_A := p.1, reg_F := p.2 }, m, 1)
  else if code = 0x8C then
    let p := CPU.ADDC c.reg_A c.reg_H c.reg_F
    some ({ c with reg_A := p.1, reg_F := p.2 }, m, 1)
  else if code = 0x8D then
    let p := CPU.ADDC c.reg_A c.reg_L c.reg_F
    some ({ c with reg_A := p.1, reg_F := p.2 }, m, 1)
  else if code = 0x8E then
    (m.read (CPU.address c.reg_H c.reg_L)).map fun v =>
            let p := CPU.ADDC c.reg_A v c.reg_F
            ({ c with reg_A := p.1, reg_F := p.2 }, m, 1)
  else if code = 0xCE then
    let p := CPU.ADDC c.reg_A value c.reg_F
    some ({ c with reg_A := p.1, reg_F := p.2 }, m, 2)
  else if code = 0x97 then
    let p := CPU.SUB c.reg_A c.reg_A c.reg_F
    some ({ c with reg_A := p.1, reg_F := p.2 }, m, 1)
  else if code = 0x90 then
    let p := CPU.SUB c.reg_A c.reg_B c.reg_F
    some ({ c with reg_A := p.1, reg_F := p.2 }, m, 1)
  else if code = 0x91 then
    let p := CPU.SUB c.reg_A c.reg_C c.reg_F
    some ({ c with reg_A := p.1, reg_F := p.2 }, m, 1)
  else if code = 0x92 then
    let p := CPU.SUB c.reg_A c.reg_D c.reg_F
    some ({ c with reg_A := p.1, reg_F := p.2 }, m, 1)
  else if code = 0x93 then
    let p := CPU.SUB c.reg_A c.reg_E c.reg_F
    some ({ c with reg_A := p.1, reg_F := p.2 }, m, 1)
  else if code = 0x94 then
    let p := CPU.SUB c.reg_A c.reg_H c.reg_F
    some ({ c with reg_A := p.1, reg_F := p.2 }, m, 1)
  else if code = 0x95 then
    let p := CPU.SUB c.reg_A c.reg_L c.reg_F
    some ({ c with reg_A := p.1, reg_F := p.2 }, m, 1)
  else if code = 0x96 then
    (m.read (CPU.address c.reg_H c.reg_L)).map fun v =>
            let p := CPU.SUB c.reg_A v c.reg_F
            ({ c with reg_A := p.1, reg_F := p.2 }, m, 1)
  else if code = 0xD6 then
    let p := CPU.SUB c.reg_A value c.reg_F
    some ({ c with reg_A := p.1, reg_F := p.2 }, m, 2)
  else if code = 0x9F then
    let p := CPU.SUBC c.reg_A c.reg_A c.reg_F
    some ({ c with reg_A := p.1, reg_F := p.2 }, m, 1)
  else if code = 0x98 then
    let p := CPU.SUBC c.reg_A c.reg_B c.reg_F
    some ({ c with reg_A := p.1, reg_F := p.2 }, m, 1)
  else if code = 0x99 then
    let p := CPU.SUBC c.reg_A c.reg_C c.reg_F
    some ({ c with reg_A := p.1, reg_F := p.2 }, m, 1)
  else if code = 0x9A then
    let p := CPU.SUBC c.reg_A c.reg_D c.reg_F
    some ({ c with reg_A := p.1, reg_F := p.2 }, m, 1)
  else if code = 0x9B then
    let p := CPU.SUBC c.reg_A c.reg_E c.reg_F
    some ({ c with reg_A := p.1, reg_F := p.2 }, m, 1)
  else if code = 0x9C then
    let p := CPU.SUBC c.reg_A c.reg_H c.reg_F
    some ({ c with reg_A := p.1, reg_F := p.2 }, m, 1)
  else if code = 0x9D then
    let p := CPU.SUBC c.reg_A c.reg_L c.reg_F
    some ({ c with reg_A := p.1, reg_F := p.2 }, m, 1)
  else if code = 0x9E then
    (m.read (CPU.address c.reg_H c.reg_L)).map fun v =>
            let p := CPU.SUBC c.reg_A v c.reg_F
            ({ c with reg_A := p.1, reg_F := p.2 }, m, 1)
  else if code = 0xA7 then
    let p := CPU.AND c.reg_A c.reg_A c.reg_F
    some ({ c with reg_A := p.1, reg_F := p.2 }, m, 1)
  else if code = 0xA0 then
    let p := CPU.AND c.reg_A c.reg_B c.reg_F
    some ({ c with reg_A := p.1, reg_F := p.2 }, m, 1)
  else if code = 0xA1 then
    let p := CPU.AND c.reg_A c.reg_C c.reg_F
    some ({ c with reg_A := p.1, reg_F := p.2 }, m, 1)
  else if code = 0xA2 then
    let p := CPU.AND c.reg_A c.reg_D c.reg_F
    some ({ c with reg_A := p.1, reg_F := p.2 }, m, 1)
  else if code = 0xA3 then
    let p := CPU.AND c.reg_A c.reg_E c.reg_F
    some ({ c with reg_A := p.1, reg_F := p.2 }, m, 1)
  else if code = 0xA4 then
    let p := CPU.AND c.reg_A c.reg_H c.reg_F
    some ({ c with reg_A := p.1, reg_F := p.2 }, m, 1)
  else if code = 0xA5 then
    let p := CPU.AND c.reg_A c.reg_L c.reg_F
    some ({ c with reg_A := p.1, reg_F := p.2 }, m, 1)
  else if code = 0xA6 then
    (m.read (CPU.address c.reg_H c.reg_L)).map fun v =>
            let p := CPU.AND c.reg_A v c.reg_F
            ({ c with reg_A := p.1, reg_F := p.2 }, m, 1)
  else if code = 0xE6 then
    let p := CPU.AND c.reg_A value c.reg_F
    some ({ c with reg_A := p.1, reg_F := p.2 }, m, 2)
  else if code = 0xB7 then
    let p := CPU.OR c.reg_A c.reg_A c.reg_F
    some ({ c with reg_A := p.1, reg_F := p.2 }, m, 1)
  else if code = 0xB0 then
    let p := CPU.OR c.reg_A c.reg_B c.reg_F
    some ({ c with reg_A := p.1, reg_F := p.2 }, m, 1)
  else if code = 0xB1 then
    let p := CPU.OR c.reg_A c.reg_C c.reg_F
    some ({ c with reg_A := p.1, reg_F := p.2 }, m, 1)
  else if code = 0xB2 then
    let p := CPU.OR c.reg_A c.reg_D c.reg_F
    some ({ c with reg_A := p.1, reg_F := p.2 }, m, 1)
  else if code = 0xB3 then
    let p := CPU.OR c.reg_A c.reg_E c.reg_F
    some ({ c with reg_A := p.1, reg_F := p.2 }, m, 1)
  else if code = 0xB4 then
    let p := CPU.OR c.reg_A c.reg_H c.reg_F
    some ({ c with reg_A := p.1, reg_F := p.2 }, m, 1)
  else if code = 0xB5 then
    let p := CPU.OR c.reg_A c.reg_L c.reg_F
    some ({ c with reg_A := p.1, reg_F := p.2 }, m, 1)
  else if code = 0xB6 then
    (m.read (CPU.address c.reg_H c.reg_L)).map fun v =>
            let p := CPU.OR c.reg_A v c.reg_F
            ({ c with reg_A := p.1, reg_F := p.2 }, m, 1)
  else if code = 0xF6 then
    let p := CPU.OR c.reg_A value c.reg_F
    some ({ c with reg_A := p.1, reg_F := p.2 }, m, 2)
  else if code = 0xAF then
    let p := CPU.XOR c.reg_A c.reg_A c.reg_F
    some ({ c with reg_A := p.1, reg_F := p.2 }, m, 1)
  else if code = 0xA8 then
    let p := CPU.XOR c.reg_A c.reg_B c.reg_F
    some ({ c with reg_A := p.1, reg_F := p.2 }, m, 1)
  else if code = 0xA9 then
    let p := CPU.XOR c.reg_A c.reg_C c.reg_F
    some ({ c with reg_A := p.1, reg_F := p.2 }, m, 1)
  else if code = 0xAA then
    let p := CPU.XOR c.reg_A c.reg_D c.reg_F
    some ({ c with reg_A := p.1, reg_F := p.2 }, m, 1)
  else if code = 0xAB then
    let p := CPU.XOR c.reg_A c.reg_E c.reg_F
    some ({ c with reg_A := p.1, reg_F := p.2 }, m, 1)
  else if code = 0xAC then
    let p := CPU.XOR c.reg_A c.reg_H c.reg_F
    some ({ c with reg_A := p.1, reg_F := p.2 }, m, 1)
  else if code = 0xAD then
    let p := CPU.XOR c.reg_A c.reg_L c.reg_F
    some ({ c with reg_A := p.1, reg_F := p.2 }, m, 1)
  else if code = 0xAE then
    (m.read (CPU.address c.reg_H c.reg_L)).map fun v =>
            let p := CPU.OR c.reg_A v c.reg_F
            ({ c with reg_A := p.1, reg_F := p.2 }, m, 1)
  else if code = 0xEE then
    let p := CPU.XOR c.reg_A value c.reg_F
    some ({ c with reg_A := p.1, reg_F := p.2 }, m, 2)
  else if code = 0xBF then
    some ({ c with reg_F := CPU.CP c.reg_A c.reg_A c.reg_F }, m, 1)
  else if code = 0xB8 then
    some ({ c with reg_F := CPU.CP c.reg_A c.reg_B c.reg_F }, m, 1)
  else if code = 0xB9 then
    some ({ c with reg_F := CPU.CP c.reg_A c.reg_C c.reg_F }, m, 1)
  else if code = 0xBA then
    some ({ c with reg_F := CPU.CP c.reg_A c.reg_D c.reg_F }, m, 1)
  else if code = 0xBB then
    some ({ c with reg_F := CPU.CP c.reg_A c.reg_E c.reg_F }, m, 1)
  else if code = 0xBC then
    some ({ c with reg_F := CPU.CP c.reg_A c.reg_H c.reg_F }, m, 1)
  else if code = 0xBD then
    some ({ c with reg_F := CPU.CP c.reg_A c.reg_L c.reg_F }, m, 1)
  else if code = 0xBE then
    (m.read (CPU.address c.reg_H c.reg_L)).map fun v =>
            ({ c with reg_F := CPU.CP c.reg_A v c.reg_F }, m, 1)
  else if code = 0xFE then
    some ({ c with reg_F := CPU.CP c.reg_A value c.reg_F }, m, 2)
  else if code = 0x3C then
    let p := CPU.INC c.reg_A c.reg_F
    some ({ c with reg_A := p.1, reg_F := p.2 }, m, 1)
  else if code = 0x04 then
    let p := CPU.INC c.reg_B c.reg_F
    some ({ c with reg_B := p.1, reg_F := p.2 }, m, 1)
  else if code = 0x0C then
    let p := CPU.INC c.reg_C c.reg_F
    some ({ c with reg_C := p.1, reg_F := p.2 }, m, 1)
  else if code = 0x14 then
    let p := CPU.INC c.reg_D c.reg_F
    some ({ c with reg_D := p.1, reg_F := p.2 }, m, 1)
  else if code = 0x1C then
    let p := CPU.INC c.reg_E c.reg_F
    some ({ c with reg_E := p.1, reg_F := p.2 }, m, 1)
  else if code = 0x24 then
    let p := CPU.INC c.reg_H c.reg_F
    some ({ c with reg_H := p.1, reg_F := p.2 }, m, 1)
  else if code = 0x2C then
    let p := CPU.INC c.reg_L c.reg_F
    some ({ c with reg_L := p.1, reg_F := p.2 }, m, 1)
  else if code = 0x34 then
    (m.read (CPU.address c.reg_H c.reg_L)).map fun v =>
            let p := CPU.INC v c.reg_F
            ({ c with reg_F := p.2 }, m.write (CPU.address c.reg_H c.reg_L) p.1, 1)
  else if code = 0x3D then
    let p := CPU.DEC c.reg_A c.reg_F
    some ({ c with reg_A := p.1, reg_F := p.2 }, m, 1)
  else if code = 0x05 then
    let p := CPU.DEC c.reg_B c.reg_F
    some ({ c with reg_B := p.1, reg_F := p.2 }, m, 1)
  else if code = 0x0D then
    let p := CPU.DEC c.reg_C c.reg_F
    some ({ c with reg_C := p.1, reg_F := p.2 }, m, 1)
  else if code = 0x15 then
    let p := CPU.DEC c.reg_D c.reg_F
    some ({ c with reg_D := p.1, reg_F := p.2 }, m, 1)
  else if code = 0x1D then
    let p := CPU.DEC c.reg_E c.reg_F
    some ({ c with reg_E := p.1, reg_F := p.2 }, m, 1)
  else if code = 0x25 then
    let p := CPU.DEC c.reg_H c.reg_F
    some ({ c with reg_H := p.1, reg_F := p.2 }, m, 1)
  else if code = 0x2D then
    let p := CPU.DEC c.reg_L c.reg_F
    some ({ c with reg_L := p.1, reg_F := p.2 }, m, 1)
  else if code = 0x35 then
    (m.read (CPU.address c.reg_H c.reg_L)).map fun v =>
            let p := CPU.DEC v c.reg_F
            ({ c with reg_F := p.2 }, m.write (CPU.address c.reg_H c.reg_L) p.1, 1)
  else some (c, m, 1)

/-- Modelled from the spec: `Display::is_lcd_enabled`, "sourced directly from
LCDC bit 7 via the memory map". -/
def Display.is_lcd_enabled (m : Memory) : Bool := is_bit_set (m.ZRAM 0x40) 7

/-- The `Emulator` object from emulator.cpp: the CPU, the memory, and the
counters (`divider_counter`, `timer_frequency`, `timer_counter`,
`scanline_counter`) declared in the missing emulator.h.  The display
collaborator carries no core state (its `draw_scanline` renders from VRAM
into its own pixel buffer, per the spec), so it is not a field. -/
structure Emulator where
  cpu : CPU
  memory : Memory
  divider_counter : Int
  timer_frequency : Nat
  timer_counter : Int
  scanline_counter : Int

/-- Modelled from the spec: interrupt bit ids from the missing header
(0=V-Blank, 1=LCDC, 2=Timer, 3=Serial, 4=Joypad). -/
def INTERRUPT_VBLANK : Nat := 0

/-- Modelled from the spec: LCDC (STAT) interrupt bit. -/
def INTERRUPT_LCDC : Nat := 1

/-- Modelled from the spec: timer interrupt bit. -/
def INTERRUPT_TIMER : Nat := 2

/-- Modelled from the spec: joypad interrupt bit. -/
def INTERRUPT_JOYPAD : Nat := 4

/-- `Emulator::request_interrupt`: `memory.IF.set_bit(id)`; IF lives at
ZRAM offset 0x0F (spec MMIO table, memory.h is missing). -/
def Emulator.request_interrupt (id : Nat) (e : Emulator) : Emulator :=
  { e with memory := e.memory.zset 0x0F (set_bit (e.memory.ZRAM 0x0F) id) }

/-- `Emulator::update_divider` (emulator.cpp lines 41-50): the accumulator
advances by the cycle count; at 256 or more it is reset to zero (not reduced
by 256) and DIV (ZRAM 0x04) is incremented. -/
def Emulator.update_divider (cycles : Int) (e : Emulator) : Emulator :=
  let dc := e.divider_counter + cycles
  if dc ≥ 256 then
    { e with divider_counter := 0
             memory := e.memory.zset 0x04 (e.memory.zget 0x04 + 1) }
  else
    { e with divider_counter := dc }

/-- `Emulator::get_timer_frequency`: `TAC.get() & 0x3` (TAC at ZRAM 0x07). -/
def Emulator.get_timer_frequency (e : Emulator) : Nat := e.memory.zget 0x07 &&& 0x3

/-- `Emulator::timer_enabled`: TAC bit 2. -/
def Emulator.timer_enabled (e : Emulator) : Bool := is_bit_set (e.memory.ZRAM 0x07) 2

/-- `Emulator::set_timer_frequency` (emulator.cpp lines 100-113). -/
def Emulator.set_timer_frequency (e : Emulator) : Emulator :=
  let frequency := Emulator.get_timer_frequency e
  let counter : Int :=
    if frequency = 0 then 1024
    else if frequency = 1 then 16
    else if frequency = 2 then 64
    else if frequency = 3 then 256
    else e.timer_counter
  { e with timer_frequency := frequency, timer_counter := counter }

/-- `Emulator::update_timers` (emulator.cpp lines 53-88). -/
def Emulator.update_timers (cycles : Int) (e : Emulator) : Emulator :=
  let e := Emulator.update_divider cycles e
  let new_freq := Emulator.get_timer_frequency e
  let e : Emulator := if e.timer_frequency ≠ new_freq then
      { Emulator.set_timer_frequency e with timer_frequency := new_freq }
    else e
  if Emulator.timer_enabled e then
    let e : Emulator := { e with timer_counter := e.timer_counter - cycles }
    if e.timer_counter ≤ 0 then
      let timer_value := e.memory.zget 0x05
      let e := Emulator.set_timer_frequency e
      if timer_value = 255 then
        let e := { e with memory := e.memory.zset 0x05 (e.memory.zget 0x06) }
        Emulator.request_interrupt INTERRUPT_TIMER e
      else
        { e with memory := e.memory.zset 0x05 (timer_value + 1) }
    else e
  else e

/-- `Emulator::set_lcd_status` (emulator.cpp lines 161-240).  STAT lives at
ZRAM 0x41, LY at 0x44 and LYC at 0x45. -/
def Emulator.set_lcd_status (e : Emulator) : Emulator :=
  let status := e.memory.zget 0x41
  if Display.is_lcd_enabled e.memory = false then
    let e := { e with scanline_counter := 456 }
    let e := { e with memory := e.memory.zset 0x44 0 }
    let status := status &&& 252
    let status := set_bit status 0
    { e with memory := e.memory.zset 0x41 status }
  else
    let current_line := e.memory.zget 0x44
    let current_mode := status &&& 0x03
    let modeInterruptStatus : Nat × Bool × Nat :=
      if current_line ≥ 144 then
        let status := set_bit status 0
        let status := clear_bit status 1
        (1, is_bit_set status 4, status)
      else
        let mode2_threshold : Int := 456 - 80
        let mode3_threshold : Int := mode2_threshold - 172
        if e.scanline_counter ≥ mode2_threshold then
          let status := set_bit status 1
          let status := clear_bit status 0
          (2, is_bit_set status 5, status)
        else if e.scanline_counter ≥ mode3_threshold then
          let status := set_bit status 1
          let status := set_bit status 0
          (3, false, status)
        else
          let status := clear_bit status 1
          let status := clear_bit status 0
          (0, is_bit_set status 3, status)
    let mode := modeInterruptStatus.1
    let do_interrupt := modeInterruptStatus.2.1
    let status := modeInterruptStatus.2.2
    let e := if do_interrupt ∧ mode ≠ current_mode then
        Emulator.request_interrupt INTERRUPT_LCDC e
      else e
    let statusE : Nat × Emulator :=
      if e.memory.zget 0x44 = e.memory.zget 0x45 then
        let status := set_bit status 2
        if is_bit_set status 6 then (status, Emulator.request_interrupt INTERRUPT_LCDC e)
        else (status, e)
      else (clear_bit status 2, e)
    let status := statusE.1
    let e := statusE.2
    { e with memory := e.memory.zset 0x41 status }

/-- `Emulator::update_scanline` (emulator.cpp lines 242-268).  LY is ZRAM
0x44; the `draw_scanline` hook of the display does not touch the core state. -/
def Emulator.update_scanline (cycles : Int) (e : Emulator) : Emulator :=
  let e := Emulator.set_lcd_status e
  if Display.is_lcd_enabled e.memory then
    let e := { e with scanline_counter := e.scanline_counter - cycles }
    if e.scanline_counter ≤ 0 then
      let current_scanline := e.memory.zget 0x44
      let e := { e with memory := e.memory.zset 0x44 (current_scanline + 1)
                        scanline_counter := 456 }
      if current_scanline = 144 then
        Emulator.request_interrupt 0 e
      else if current_scanline > 153 then
        { e with memory := e.memory.zset 0x44 0 }
      else
        e
    else e
  else e

/-- `Emulator::service_interrupt` (emulator.cpp lines 143-159): clear IME,
clear the IF bit, push PC high then low (SP wraps as uint16), and set PC to
the vector — there is no case for the serial interrupt (bit 3), which leaves
PC unchanged. -/
def Emulator.service_interrupt (id : Nat) (e : Emulator) : Emulator :=
  let cpu := { e.cpu with interrupt_master_enable := false }
  let m := e.memory.zset 0x0F (clear_bit (e.memory.ZRAM 0x0F) id)
  let sp1 := (cpu.reg_SP + 65535) % 65536
  let m := m.write sp1 (high_byte cpu.reg_PC)
  let sp2 := (sp1 + 65535) % 65536
  let m := m.write sp2 (low_byte cpu.reg_PC)
  let cpu := { cpu with reg_SP := sp2 }
  let pc :=
    if id = INTERRUPT_VBLANK then 0x40
    else if id = INTERRUPT_LCDC then 0x48
    else if id = INTERRUPT_TIMER then 0x50
    else if id = INTERRUPT_JOYPAD then 0x60
    else cpu.reg_PC
  { e with cpu := { cpu with reg_PC := pc }, memory := m }

/-- The body of the `for (int i = 0; i < 5; i++)` loop in
`Emulator::do_interrupts`. -/
def Emulator.interrupt_step (st : Emulator) (i : Nat) : Emulator :=
  if is_bit_set (st.memory.ZRAM 0x0F) i then
    if is_bit_set (st.memory.ZRAM 0xFF) i then Emulator.service_interrupt i st
    else st
  else st

/-- `Emulator::do_interrupts` (emulator.cpp lines 120-141): if IME is set
and IF is nonzero, loop over bits 0..4 and service every bit set in both IF
and IE (IME is only consulted once, before the loop). -/
def Emulator.do_interrupts (e : Emulator) : Emulator :=
  if e.cpu.interrupt_master_enable then
    if e.memory.zget 0x0F > 0 then
      (List.range 5).foldl Emulator.interrupt_step e
    else e
  else e

/-- One iteration of the inner while loop of `Emulator::run` (emulator.cpp
lines 20-34): fetch the opcode byte at PC, call `parse_opcode` (its
`opbytes` return value is discarded and PC is never advanced), feed
`cpu.num_cycles` (which cpu.cpp never sets) to the timers and the LCD unit,
dispatch interrupts, and zero `num_cycles`.  The frame-budget arithmetic
(`current_cycle`) is loop bookkeeping, not machine state. -/
def Emulator.run_step (e : Emulator) : Option Emulator := do
  let code ← e.memory.read e.cpu.reg_PC
  let r ← CPU.parse_opcode code e.cpu e.memory
  let e1 : Emulator := { e with cpu := r.1, memory := r.2.1 }
  let e2 := Emulator.update_timers e1.cpu.num_cycles e1
  let e3 := Emulator.update_scanline e1.cpu.num_cycles e2
  let e4 := Emulator.do_interrupts e3
  some { e4 with cpu := { e4.cpu with num_cycles := 0 } }

/-- An emulator state built from the constructed CPU and memory; the counter
fields declared in the missing emulator.h are given the concrete values the
spec prescribes for the scanline counter (456) and zero elsewhere.  Used only
as a base for concrete scenarios. -/
def baseEmulator : Emulator :=
  { cpu := CPU.init
    memory := initMemory
    divider_counter := 0
    timer_frequency := 0
    timer_counter := 0
    scanline_counter := 456 }

/-- Executes a sequence of opcodes through `CPU::parse_opcode`, threading the
CPU and memory: the effect of an arbitrary opcode sequence on the core. -/
def exec_ops : List Nat → CPU → Memory → Option (CPU × Memory)
  | [], c, m => some (c, m)
  | code :: rest, c, m =>
    match CPU.parse_opcode code c m with
    | none => none
    | some r => exec_ops rest r.1 r.2.1

/-- Emulator state for the C1 scenario: the ROM holds the two-byte
instruction LD B,n with operand 0x42 at address 0, PC = 0. -/
def c1_state : Emulator :=
  { baseEmulator with memory := { initMemory with CART_ROM := [0x06, 0x42] } }

/-- C1: refuted on the code.  Executing one iteration of the run loop on
LD B,n (opcode 0x06, operand byte 0x42 at PC+1) leaves PC at 0 instead of
advancing it by the 2-byte instruction length, and loads B with the
hard-coded local 200 instead of the operand fetched from PC+1: the
claimed fetch of immediates at PC+1/PC+2 and the PC advance do not happen. -/
theorem c1_step_ignores_operands_and_pc :
    (Emulator.run_step c1_state).map (fun e => (e.cpu.reg_PC, e.cpu.reg_B)) =
      some (0, 200) ∧
    ((0, 200) : Nat × Nat) ≠ (2, 0x42) := by
  exact ⟨by decide, by decide⟩

/-- CPU state for the C3 scenario: A = 0x3A, B = 0xC6. -/
def c3_cpu : CPU := { CPU.init with reg_A := 0x3A, reg_B := 0xC6 }

/-- C3: refuted on the code.  Executing opcode 0x80 (ADD A,B) with A=0x3A,
B=0xC6 yields A=0x00 and F=0x30 (N=0, H=1, C=1 but Z=0): `CPU::ADD` tests
the untruncated `int` sum 0x100 against zero, so Z is not set even though
the truncated result is zero, contradicting Z=(result and 0xFF)==0. -/
theorem c3_add_zero_flag_eval :
    (CPU.parse_opcode 0x80 c3_cpu initMemory).map
        (fun x => (x.1.reg_A, x.1.reg_F, x.2.2)) = some (0x00, 0x30, 1) ∧
    Nat.testBit 0x30 7 = false := by
  exact ⟨by decide, by decide⟩

/-- C4: refuted on the code.  SBC with A=0x05, v=0x05 and carry-in 1
(F=0x10) gives A=0xFF (correct) but F=0xC0 (Z=1, N=1, H=0, C=0), because
`CPU::SUBC` computes all flags in `SUB(target, value)` before subtracting
the carry; the claimed flags are Z=0, N=1, H=1, C=1 (F=0x70). -/
theorem c4_subc_flags_eval :
    CPU.SUBC 0x05 0x05 0x10 = (0xFF, 0xC0) ∧ (0xC0 : Nat) ≠ 0x70 := by
  exact ⟨by decide, by decide⟩

/-- CPU state for the C5 counterexample: A=0x12, F=0x0F (low nibble set),
SP=0xFFFE. -/
def c5_cpu : CPU := { CPU.init with reg_A := 0x12, reg_F := 0x0F, reg_SP := 0xFFFE }

/-- C5: counterexample.  PUSH AF followed by POP AF with F = 0x0F returns
F = 0x0F unchanged — `CPU::POP` does not mask the low nibble of F to zero
as the claim requires (the claim predicts a restored F of 0x00). -/
theorem c5_counterexample :
    (let p := CPU.PUSH c5_cpu.reg_A c5_cpu.reg_F c5_cpu initMemory
     (CPU.POP p.1 p.2).map (fun x => (x.1, x.2.1, x.2.2.reg_SP))) =
      some (0x12, 0x0F, 0xFFFE) ∧
    (0x0F : Nat) ≠ 0x00 := by
  exact ⟨by decide, by decide⟩

/-- Memory for the C2 counterexample: IF = 0b11, IE = 0b11. -/
def c2_memory : Memory :=
  { initMemory with
    ZRAM := fun i => if i = 0x0F then 3 else if i = 0xFF then 3 else initMemory.ZRAM i }

/-- Emulator state for the C2 counterexample: IME set, SP=0xD000,
PC=0x1234, V-Blank and LCDC both pending and enabled. -/
def c2_state : Emulator :=
  { baseEmulator with
    cpu := { CPU.init with interrupt_master_enable := true, reg_SP := 0xD000, reg_PC := 0x1234 }
    memory := c2_memory }

/-- C2: counterexample.  With IME set and IF = IE = 0b11, `do_interrupts`
services BOTH pending interrupts in one pass (the loop keeps going after the
first service): afterwards PC = 0x48 (the LCDC vector), both IF bits are
cleared and SP has dropped by 4.  The claim predicts exactly one service of
the lowest bit: PC = 0x40, IF = 0b10, SP dropped by 2. -/
theorem c2_counterexample :
    ((Emulator.do_interrupts c2_state).cpu.reg_PC = 0x48 ∧
     (Emulator.do_interrupts c2_state).memory.ZRAM 0x0F = 0 ∧
     (Emulator.do_interrupts c2_state).cpu.reg_SP = 0xCFFC) ∧
    ¬((Emulator.do_interrupts c2_state).cpu.reg_PC = 0x40 ∧
      (Emulator.do_interrupts c2_state).memory.ZRAM 0x0F = 2 ∧
      (Emulator.do_interrupts c2_state).cpu.reg_SP = 0xCFFE) := by
  exact ⟨by decide, by decide⟩

/-- Opcode sequence for the C6 counterexample: build A = 0x44 by INC A and
ADD A,A doublings, copy it to C (LD C,A), rebuild A = 154 the same way after
XOR A,A, then LD (0xFF00+C),A which stores 154 into LY (FF44). -/
def c6_prog : List Nat :=
  [0x3C, 0x87, 0x87, 0x87, 0x87, 0x3C, 0x87, 0x87, 0x4F,
   0xAF, 0x3C, 0x87, 0x87, 0x87, 0x3C, 0x87, 0x3C, 0x87, 0x87, 0x3C, 0x87,
   0xE2]

/-- Emulator state for the scanline half of the C6 counterexample: LY = 153,
scanline counter 1, LCD enabled (LCDC = 0x91 from the constructor). -/
def c6_state : Emulator :=
  { baseEmulator with
    memory := { initMemory with
                ZRAM := fun i => if i = 0x44 then 153 else initMemory.ZRAM i }
    scanline_counter := 1 }

/-- C6: counterexample.  (a) From the reset state, the opcode sequence
`c6_prog` (with the LCD enabled throughout) drives a store of 154 into LY via
LD (0xFF00+C),A — LY is an ordinary ZRAM byte, so it leaves 0..153.
(b) At a scanline boundary with LY = 153, `update_scanline` sets LY to 154
rather than wrapping it to 0; the wrap only happens one full scanline later. -/
theorem c6_counterexample :
    ((exec_ops c6_prog CPU.init initMemory).map
        (fun p => (p.2.ZRAM 0x44, Display.is_lcd_enabled p.2)) = some (154, true)) ∧
    (Emulator.update_scanline 1 c6_state).memory.ZRAM 0x44 = 154 ∧
    ¬(154 ≤ 153) := by
  refine ⟨by decide, by decide, by decide⟩

/-- C7: counterexample.  With the accumulator at 0, a 300-cycle step resets
the accumulator to 0, not to 300-256=44; and over the step sequence
255, 255, 2 (512 cycles total) DIV increments once, not twice — the
remainder cycles beyond 256 are discarded, not carried over. -/
theorem c7_counterexample :
    ((Emulator.update_divider 300 baseEmulator).divider_counter = 0 ∧
     (Emulator.update_divider 300 baseEmulator).divider_counter ≠ 300 - 256) ∧
    (let e3 := Emulator.update_divider 2
        (Emulator.update_divider 255 (Emulator.update_divider 255 baseEmulator))
     e3.memory.ZRAM 0x04 = 1 ∧ e3.divider_counter = 2 ∧ e3.memory.ZRAM 0x04 ≠ 2) := by
  refine ⟨⟨by decide, by decide⟩, by decide, by decide, by decide⟩

/-- Memory for the C9 counterexample: a one-byte cartridge ROM. -/
def c9_memory : Memory := { initMemory with CART_ROM := [0xAA] }

/-- C9: counterexample.  Reading address 0x0100 with a 1-byte ROM loaded is
an out-of-bounds `CART_ROM[location]` access (no defined result, modelled
`none`), not the claimed total read returning 0xFF. -/
theorem c9_counterexample :
    Memory.read c9_memory 0x0100 = none ∧ (none : Option Nat) ≠ some 0xFF := by
  exact ⟨by decide, by decide⟩

/-- C8: the echo region 0xE000-0xFDFF aliases WRAM.  A read of an echo
address equals a read of the corresponding WRAM address 0xC000+(a and
0x1FFF), and a (byte) write to either address is visible to a subsequent
read of the other. -/
theorem c8_echo_ram (m : Memory) (a : Nat)
    (h1 : 0xE000 ≤ a) (h2 : a ≤ 0xFDFF) :
    Memory.read m a = Memory.read m (0xC000 + (a &&& 0x1FFF)) ∧
    ∀ v, v < 256 →
      Memory.read (Memory.write m a v) (0xC000 + (a &&& 0x1FFF)) = some v ∧
      Memory.read (Memory.write m (0xC000 + (a &&& 0x1FFF)) v) a = some v := by
  rw [and_1FFF]
  have hmod : a % 8192 = a - 57344 := by omega
  have hidx : (0xC000 + a % 8192) % 8192 = a % 8192 := by omega
  refine ⟨?_, fun v hv => ⟨?_, ?_⟩⟩
  · rw [read_wram_range m a (by omega) h2,
      read_wram_range m (0xC000 + a % 8192) (by omega) (by omega), hidx]
  · rw [read_wram_range _ (0xC000 + a % 8192) (by omega) (by omega), hidx,
      write_wram_range m a v (a % 8192) (by omega) h2, if_pos rfl]
    have hvv : v % 256 % 256 = v := by omega
    rw [hvv]
  · rw [read_wram_range _ a (by omega) h2,
      write_wram_range m (0xC000 + a % 8192) v (a % 8192) (by omega) (by omega), hidx,
      if_pos rfl]
    have hvv : v % 256 % 256 = v := by omega
    rw [hvv]

/-- C8 witness: the round trip at the concrete echo address 0xE123. -/
theorem c8_echo_ram_witness :
    Memory.read initMemory 0xE123 = Memory.read initMemory (0xC000 + (0xE123 &&& 0x1FFF)) ∧
    Memory.read (Memory.write initMemory 0xE123 77) (0xC000 + (0xE123 &&& 0x1FFF)) = some 77 :=
  ⟨(c8_echo_ram initMemory 0xE123 (by decide) (by decide)).1,
   ((c8_echo_ram initMemory 0xE123 (by decide) (by decide)).2 77 (by decide)).1⟩

/-- C9: amended.  A read in 0x0000-0x7FFF indexes CART_ROM directly with no
bounds check: within the loaded length it returns the ROM byte, and at or
beyond the length the access is out of bounds with no defined result
(modelled as none) — not the claimed 0xFF. -/
theorem c9_amended (m : Memory) (loc : Nat) (h : loc < 0x8000) :
    Memory.read m loc = (m.CART_ROM.get? loc).map toByte ∧
    (m.CART_ROM.length ≤ loc → Memory.read m loc = none) := by
  have ha : loc % 65536 = loc := Nat.mod_eq_of_lt (by omega)
  have hrom : Memory.read m loc = (m.CART_ROM.get? loc).map toByte := by
    simp only [Memory.read, toWord, ha, and_F000, and_0F00, and_1FFF]
    split_ifs <;> first | rfl | omega
  refine ⟨hrom, fun hlen => ?_⟩
  rw [hrom, List.get?_eq_none.mpr hlen]
  rfl

/-- C9 witness: in-bounds and out-of-bounds reads on the 1-byte ROM. -/
theorem c9_amended_witness :
    Memory.read c9_memory 0 = (c9_memory.CART_ROM.get? 0).map toByte ∧
    Memory.read c9_memory 0x0100 = none :=
  ⟨(c9_amended c9_memory 0 (by decide)).1,
   (c9_amended c9_memory 0x0100 (by decide)).2 (by decide)⟩

/-- C5: amended.  When both stack cells lie in WRAM (0xC002 ≤ SP ≤ 0xE000)
a PUSH of any byte pair followed by POP returns exactly the pushed pair and
restores SP — for BC, DE and HL, but equally for AF: the F byte comes back
verbatim, its low nibble preserved rather than zeroed. -/
theorem c5_amended (c : CPU) (m : Memory) (hi lo : Nat)
    (hhi : hi < 256) (hlo : lo < 256)
    (h1 : 0xC002 ≤ c.reg_SP) (h2 : c.reg_SP ≤ 0xE000) :
    CPU.POP (CPU.PUSH hi lo c m).1 (CPU.PUSH hi lo c m).2 = some (hi, lo, c) := by
  have hsp1 : (c.reg_SP + 65535) % 65536 = c.reg_SP - 1 := by omega
  have hsp2 : (c.reg_SP - 1 + 65535) % 65536 = c.reg_SP - 2 := by omega
  have hsp3 : (c.reg_SP - 2 + 1) % 65536 = c.reg_SP - 1 := by omega
  have hsp4 : (c.reg_SP - 2 + 2) % 65536 = c.reg_SP := by omega
  simp only [CPU.PUSH, CPU.POP, hsp1, hsp2, hsp3, hsp4]
  have hr2 : Memory.read (Memory.write (Memory.write m (c.reg_SP - 1) hi) (c.reg_SP - 2) lo)
      (c.reg_SP - 2) = some lo := by
    rw [read_wram_range _ (c.reg_SP - 2) (by omega) (by omega),
      write_wram_range _ (c.reg_SP - 2) lo ((c.reg_SP - 2) % 8192) (by omega) (by omega),
      if_pos rfl]
    have hx : lo % 256 % 256 = lo := by omega
    rw [hx]
  have hr1 : Memory.read (Memory.write (Memory.write m (c.reg_SP - 1) hi) (c.reg_SP - 2) lo)
      (c.reg_SP - 1) = some hi := by
    rw [read_wram_range _ (c.reg_SP - 1) (by omega) (by omega),
      write_wram_range _ (c.reg_SP - 2) lo ((c.reg_SP - 1) % 8192) (by omega) (by omega),
      if_neg (by omega),
      write_wram_range m (c.reg_SP - 1) hi ((c.reg_SP - 1) % 8192) (by omega) (by omega),
      if_pos rfl]
    have hx : hi % 256 % 256 = hi := by omega
    rw [hx]
  rw [hr2, hr1]
  rfl

/-- C5 witness: the generic round trip at SP = 0xD000 with bytes 1 and 2. -/
theorem c5_amended_witness :
    CPU.POP (CPU.PUSH 1 2 { CPU.init with reg_SP := 0xD000 } initMemory).1
            (CPU.PUSH 1 2 { CPU.init with reg_SP := 0xD000 } initMemory).2 =
      some (1, 2, { CPU.init with reg_SP := 0xD000 }) :=
  c5_amended { CPU.init with reg_SP := 0xD000 } initMemory 1 2
    (by decide) (by decide) (by decide) (by decide)

/-- Memory for the C10 witness: a 6-byte ROM whose byte at address 0x0005
is 0x77. -/
def c10_memory : Memory := { initMemory with CART_ROM := [0, 0, 0, 0, 0, 0x77] }

/-- C10: `parse_opcode` overwrites H with 0x00 and L with 0x05 before the
switch on every call: (1) its result never depends on the H and L values the
program had established; (2) an (HL)-indirect load such as 0x7E reads memory
address 0x0005; (3) an (HL)-indirect store such as 0x70 writes memory
address 0x0005; H and L survive only as 0 and 5 unless the decoded opcode
itself writes them. -/
theorem c10_hl_clobber :
    (∀ (code : Nat) (c : CPU) (m : Memory) (h1 l1 h2 l2 : Nat),
        CPU.parse_opcode code { c with reg_H := h1, reg_L := l1 } m =
        CPU.parse_opcode code { c with reg_H := h2, reg_L := l2 } m) ∧
    (∀ (c : CPU) (m : Memory) (v : Nat), Memory.read m 5 = some v →
        CPU.parse_opcode 0x7E c m =
          some ({ c with reg_H := 0, reg_L := 5, reg_A := v }, m, 1)) ∧
    (∀ (c : CPU) (m : Memory),
        CPU.parse_opcode 0x70 c m =
          some ({ c with reg_H := 0, reg_L := 5 }, Memory.write m 5 c.reg_B, 1)) := by
  have haddr : CPU.address 0 5 = 5 := by decide
  refine ⟨fun code c m h1 l1 h2 l2 => rfl, fun c m v h => ?_, fun c m => ?_⟩
  · unfold CPU.parse_opcode
    norm_num [haddr, h]
  · unfold CPU.parse_opcode
    norm_num [haddr]

/-- C10 witness: opcode 0x7E with H=L=9 still reads address 5 (value 0x77). -/
theorem c10_hl_clobber_witness :
    CPU.parse_opcode 0x7E { CPU.init with reg_H := 9, reg_L := 9 } c10_memory =
      some ({ CPU.init with reg_H := 0, reg_L := 5, reg_A := 0x77 }, c10_memory, 1) :=
  c10_hl_clobber.2.1 { CPU.init with reg_H := 9, reg_L := 9 } c10_memory 0x77 (by decide)

/-- When the accumulated cycles reach 256, the accumulator resets to zero
and DIV increments by one modulo 256. -/
lemma update_divider_ge (e : Emulator) (cycles : Int) (h : 256 ≤ e.divider_counter + cycles) :
    (Emulator.update_divider cycles e).divider_counter = 0 ∧
    (Emulator.update_divider cycles e).memory.ZRAM 0x04 =
      (e.memory.ZRAM 0x04 % 256 + 1) % 256 := by
  unfold Emulator.update_divider
  rw [if_pos (by omega)]
  exact ⟨rfl, by simp [Memory.zset, Memory.zget]⟩

/-- Below 256 accumulated cycles, only the accumulator advances. -/
lemma update_divider_lt (e : Emulator) (cycles : Int) (h : e.divider_counter + cycles < 256) :
    (Emulator.update_divider cycles e).divider_counter = e.divider_counter + cycles ∧
    (Emulator.update_divider cycles e).memory.ZRAM 0x04 = e.memory.ZRAM 0x04 := by
  unfold Emulator.update_divider
  rw [if_neg (by omega)]
  exact ⟨rfl, rfl⟩

/-- C7: amended.  The internal accumulator advances by each step cycle
count; once it reaches at least 256, DIV (FF04) increments by one modulo 256
and the accumulator RESETS TO ZERO, discarding the excess instead of
decreasing by 256; hence DIV increments at most once per step, and for steps
of exactly 256 cycles it increments exactly once per step. -/
theorem c7_amended :
    (∀ (e : Emulator) (cycles : Int), 256 ≤ e.divider_counter + cycles →
      (Emulator.update_divider cycles e).divider_counter = 0 ∧
      (Emulator.update_divider cycles e).memory.ZRAM 0x04 =
        (e.memory.ZRAM 0x04 % 256 + 1) % 256) ∧
    (∀ (e : Emulator) (cycles : Int), e.divider_counter + cycles < 256 →
      (Emulator.update_divider cycles e).divider_counter = e.divider_counter + cycles ∧
      (Emulator.update_divider cycles e).memory.ZRAM 0x04 = e.memory.ZRAM 0x04) ∧
    (∀ (n : Nat) (e : Emulator), e.divider_counter = 0 → e.memory.ZRAM 0x04 < 256 →
      ((Emulator.update_divider 256)^[n] e).memory.ZRAM 0x04 =
        (e.memory.ZRAM 0x04 + n) % 256 ∧
      ((Emulator.update_divider 256)^[n] e).divider_counter = 0) := by
  refine ⟨update_divider_ge, update_divider_lt, ?_⟩
  intro n
  induction n with
  | zero =>
    intro e h0 hlt
    refine ⟨?_, h0⟩
    simpa using (Nat.mod_eq_of_lt hlt).symm
  | succ k ih =>
    intro e h0 hlt
    rw [Function.iterate_succ_apply']
    obtain ⟨hdiv, hdc⟩ := ih e h0 hlt
    have hstep := update_divider_ge ((Emulator.update_divider 256)^[k] e) 256 (by omega)
    refine ⟨?_, hstep.1⟩
    rw [hstep.2, hdiv]
    omega

/-- C7 witness: the reset behaviour at 300 cycles and three exactly-256
cycle steps from the reset state. -/
theorem c7_amended_witness :
    (Emulator.update_divider 300 baseEmulator).divider_counter = 0 ∧
    ((Emulator.update_divider 256)^[3] baseEmulator).memory.ZRAM 0x04 =
      (baseEmulator.memory.ZRAM 0x04 + 3) % 256 :=
  ⟨(c7_amended.1 baseEmulator 300 (by decide)).1,
   (c7_amended.2.2 3 baseEmulator (by decide) (by decide)).1⟩

/-- With the LCD enabled, `set_lcd_status` only touches STAT (0x41) and IF
(0x0F): LY, LCDC and the scanline counter are unchanged. -/
lemma set_lcd_status_enabled (e : Emulator)
    (h : Display.is_lcd_enabled e.memory = true) :
    (Emulator.set_lcd_status e).memory.ZRAM 0x44 = e.memory.ZRAM 0x44 ∧
    (Emulator.set_lcd_status e).memory.ZRAM 0x40 = e.memory.ZRAM 0x40 ∧
    (Emulator.set_lcd_status e).scanline_counter = e.scanline_counter := by
  unfold Emulator.set_lcd_status
  rw [if_neg (by simp [h])]
  dsimp only
  split_ifs <;>
    simp [Emulator.request_interrupt, Memory.zset, Memory.zget]

/-- C6: amended.  LY is not an invariant of arbitrary opcode sequences (a
store to FF44 lands in plain ZRAM), and the scanline unit itself keeps LY in
0..154, not 0..153: with the LCD enabled, a step preserves LY ≤ 154, a
boundary step from LY=153 yields 154, and the boundary step taken at LY=154
wraps LY to 0. -/
theorem c6_amended (e : Emulator) (cycles : Int)
    (hlcd : Display.is_lcd_enabled e.memory = true)
    (hLY : e.memory.ZRAM 0x44 % 256 ≤ 154) :
    (Emulator.update_scanline cycles e).memory.ZRAM 0x44 % 256 ≤ 154 ∧
    (e.memory.ZRAM 0x44 % 256 = 154 → e.scanline_counter - cycles ≤ 0 →
      (Emulator.update_scanline cycles e).memory.ZRAM 0x44 % 256 = 0) := by
  obtain ⟨h44, h40, hsc⟩ := set_lcd_status_enabled e hlcd
  have hlcd2 : Display.is_lcd_enabled (Emulator.set_lcd_status e).memory = true := by
    unfold Display.is_lcd_enabled at hlcd ⊢
    rw [h40]
    exact hlcd
  unfold Emulator.update_scanline
  rw [if_pos hlcd2]
  dsimp only
  rw [hsc]
  have hcur : (Emulator.set_lcd_status e).memory.zget 0x44 = e.memory.ZRAM 0x44 % 256 := by
    unfold Memory.zget
    rw [h44]
  by_cases hb : e.scanline_counter - cycles ≤ 0
  · rw [if_pos hb]
    rw [hcur]
    by_cases h144 : e.memory.ZRAM 0x44 % 256 = 144
    · rw [if_pos h144]
      constructor
      · simp [Emulator.request_interrupt, Memory.zset, h144]
      · intro hcur154 _
        omega
    · rw [if_neg h144]
      by_cases h153 : e.memory.ZRAM 0x44 % 256 > 153
      · rw [if_pos h153]
        constructor
        · simp [Memory.zset]
        · intro _ _
          simp [Memory.zset]
      · rw [if_neg h153]
        constructor
        · simp [Memory.zset]
          omega
        · intro hcur154 _
          omega
  · rw [if_neg hb]
    refine ⟨by rw [h44]; exact hLY, fun _ hb2 => absurd hb2 hb⟩

/-- C6 witness: the amended bound applied at the reset state. -/
theorem c6_amended_witness :
    (Emulator.update_scanline 10 baseEmulator).memory.ZRAM 0x44 % 256 ≤ 154 :=
  (c6_amended baseEmulator 10 (by decide) (by decide)).1

/-- clear_bit always produces a byte. -/
lemma clear_bit_lt (b i : Nat) : clear_bit b i < 256 :=
  Nat.lt_of_le_of_lt Nat.and_le_left (Nat.mod_lt _ (by norm_num))

/-- Clearing one bit of a byte leaves its other bits readable unchanged. -/
lemma is_bit_set_clear_bit (b i j : Nat) (hi : i < 8) (hj : j < 8) (hij : i ≠ j) :
    is_bit_set (clear_bit b i) j = is_bit_set b j := by
  have key : ∀ b0, b0 < 256 → ∀ i0, i0 < 8 → ∀ j0, j0 < 8 → i0 ≠ j0 →
      is_bit_set (clear_bit b0 i0) j0 = is_bit_set b0 j0 := by decide
  have hmm : b % 256 % 256 = b % 256 := by omega
  have h1 : clear_bit b i = clear_bit (b % 256) i := by
    unfold clear_bit
    rw [hmm]
  have h2 : is_bit_set b j = is_bit_set (b % 256) j := by
    unfold is_bit_set
    rw [hmm]
  rw [h1, h2]
  exact key (b % 256) (Nat.mod_lt _ (by norm_num)) i hi j hj hij

/-- A memory write whose (uint16) target is not the ZRAM cell 0xFF00+j
leaves ZRAM cell j unchanged. -/
lemma write_ZRAM_ne (m : Memory) (a v j : Nat) (hj : j < 256)
    (ha : a % 65536 ≠ 0xFF00 + j) :
    (Memory.write m a v).ZRAM j = m.ZRAM j := by
  simp only [Memory.write, toWord, toByte, and_F000, and_0F00, and_1FFF, and_FF]
  split_ifs <;> first | rfl | (simp only [Memory.mk.injEq]; omega) | (dsimp only; rw [if_neg (by omega)])

/-- The address the k-th pushed byte goes to, counting from the current SP. -/
def push_addr (sp k : Nat) : Nat := (sp + 65535 - k) % 65536

/-- A service decrements SP by two (uint16 wrap-around). -/
lemma service_interrupt_SP (i : Nat) (e : Emulator) :
    (Emulator.service_interrupt i e).cpu.reg_SP = (e.cpu.reg_SP + 65534) % 65536 := by
  unfold Emulator.service_interrupt
  dsimp only
  omega

/-- A service clears IME. -/
lemma service_interrupt_IME (i : Nat) (e : Emulator) :
    (Emulator.service_interrupt i e).cpu.interrupt_master_enable = false := rfl

/-- When the two pushed bytes do not land on the IF cell, a service leaves
IF equal to the old IF with bit i cleared. -/
lemma service_interrupt_ZRAM_0F (i : Nat) (e : Emulator)
    (h1 : push_addr e.cpu.reg_SP 0 ≠ 0xFF0F) (h2 : push_addr e.cpu.reg_SP 1 ≠ 0xFF0F) :
    (Emulator.service_interrupt i e).memory.ZRAM 0x0F =
      clear_bit (e.memory.ZRAM 0x0F) i := by
  unfold Emulator.service_interrupt
  dsimp only
  rw [write_ZRAM_ne _ _ _ _ (by norm_num) (by unfold push_addr at h2; omega),
    write_ZRAM_ne _ _ _ _ (by norm_num) (by unfold push_addr at h1; omega)]
  simp [Memory.zset, Nat.mod_eq_of_lt (clear_bit_lt _ _)]

/-- When the two pushed bytes do not land on the IE cell, a service leaves
IE unchanged. -/
lemma service_interrupt_ZRAM_FF (i : Nat) (e : Emulator)
    (h1 : push_addr e.cpu.reg_SP 0 ≠ 0xFFFF) (h2 : push_addr e.cpu.reg_SP 1 ≠ 0xFFFF) :
    (Emulator.service_interrupt i e).memory.ZRAM 0xFF = e.memory.ZRAM 0xFF := by
  unfold Emulator.service_interrupt
  dsimp only
  rw [write_ZRAM_ne _ _ _ _ (by norm_num) (by unfold push_addr at h2; omega),
    write_ZRAM_ne _ _ _ _ (by norm_num) (by unfold push_addr at h1; omega)]
  simp [Memory.zset]

/-- The amended C2 dispatch, following the amended claim: if IME is set,
every bit i in 0..4 that is set in both IF and IE at entry is serviced, in
ascending order. -/
def do_interrupts_amended (e : Emulator) : Emulator :=
  if e.cpu.interrupt_master_enable then
    ((List.range 5).filter (fun i =>
        is_bit_set (e.memory.ZRAM 0x0F) i && is_bit_set (e.memory.ZRAM 0xFF) i)).foldl
      (fun st i => Emulator.service_interrupt i st) e
  else e

/-- The interrupt loop equals folding the service over the ascending list of
bits pending-and-enabled at entry, provided the pushes stay clear of the IF
and IE cells. -/
lemma interrupt_loop_eq (L : List Nat) :
    ∀ (s : Emulator), (∀ i ∈ L, i < 5) → L.Nodup → L.length ≤ 5 →
    (∀ k, k < 2 * L.length →
        push_addr s.cpu.reg_SP k ≠ 0xFF0F ∧ push_addr s.cpu.reg_SP k ≠ 0xFFFF) →
    L.foldl Emulator.interrupt_step s =
      (L.filter (fun i =>
          is_bit_set (s.memory.ZRAM 0x0F) i && is_bit_set (s.memory.ZRAM 0xFF) i)).foldl
        (fun st i => Emulator.service_interrupt i st) s := by
  induction L with
  | nil => intro s _ _ _ _; rfl
  | cons i T ih =>
    intro s hmem hnodup hlen hsp
    have hi5 : i < 5 := hmem i (by simp)
    by_cases hIF : is_bit_set (s.memory.ZRAM 0x0F) i
    · by_cases hIE : is_bit_set (s.memory.ZRAM 0xFF) i
      · have hstep : Emulator.interrupt_step s i = Emulator.service_interrupt i s := by
          simp [Emulator.interrupt_step, hIF, hIE]
        rw [List.foldl_cons, hstep,
          List.filter_cons_of_pos (by simp [hIF, hIE]), List.foldl_cons]
        have hp0 := hsp 0 (by simp)
        have hp1 := hsp 1 (by simp; omega)
        have hSP2 : (Emulator.service_interrupt i s).cpu.reg_SP =
            (s.cpu.reg_SP + 65534) % 65536 := service_interrupt_SP i s
        have hsp2 : ∀ k, k < 2 * T.length →
            push_addr (Emulator.service_interrupt i s).cpu.reg_SP k ≠ 0xFF0F ∧
            push_addr (Emulator.service_interrupt i s).cpu.reg_SP k ≠ 0xFFFF := by
          intro k hk
          have hkb : k + 2 < 2 * (i :: T).length := by simp; omega
          have := hsp (k + 2) hkb
          have heq : push_addr (Emulator.service_interrupt i s).cpu.reg_SP k =
              push_addr s.cpu.reg_SP (k + 2) := by
            rw [hSP2]
            unfold push_addr
            have hkk : k ≤ 2 * T.length := by omega
            have hTl : T.length ≤ 5 := by simp at hlen; omega
            omega
          rw [heq]
          exact this
        have h0F : (Emulator.service_interrupt i s).memory.ZRAM 0x0F =
            clear_bit (s.memory.ZRAM 0x0F) i :=
          service_interrupt_ZRAM_0F i s hp0.1 hp1.1
        have hFF : (Emulator.service_interrupt i s).memory.ZRAM 0xFF =
            s.memory.ZRAM 0xFF :=
          service_interrupt_ZRAM_FF i s hp0.2 hp1.2
        have hfilT : T.filter (fun j =>
              is_bit_set ((Emulator.service_interrupt i s).memory.ZRAM 0x0F) j &&
              is_bit_set ((Emulator.service_interrupt i s).memory.ZRAM 0xFF) j) =
            T.filter (fun j =>
              is_bit_set (s.memory.ZRAM 0x0F) j && is_bit_set (s.memory.ZRAM 0xFF) j) := by
          apply List.filter_congr
          intro j hjT
          have hj5 : j < 5 := hmem j (by simp [hjT])
          have hij : i ≠ j := by
            rintro rfl
            exact (List.nodup_cons.mp hnodup).1 hjT
          rw [h0F, hFF, is_bit_set_clear_bit _ _ _ (by omega) (by omega) hij]
        rw [← hfilT]
        exact ih (Emulator.service_interrupt i s)
          (fun j hj => hmem j (by simp [hj])) (List.nodup_cons.mp hnodup).2
          (by simp at hlen ⊢; omega) hsp2
      · have hstep : Emulator.interrupt_step s i = s := by
          simp [Emulator.interrupt_step, hIF, hIE]
        rw [List.foldl_cons, hstep, List.filter_cons_of_neg (by simp [hIE])]
        exact ih s (fun j hj => hmem j (by simp [hj])) (List.nodup_cons.mp hnodup).2
          (by simp at hlen ⊢; omega)
          (fun k hk => hsp k (by simp at hk ⊢; omega))
    · have hstep : Emulator.interrupt_step s i = s := by
        simp [Emulator.interrupt_step, hIF]
      rw [List.foldl_cons, hstep, List.filter_cons_of_neg (by simp [hIF])]
      exact ih s (fun j hj => hmem j (by simp [hj])) (List.nodup_cons.mp hnodup).2
        (by simp at hlen ⊢; omega)
        (fun k hk => hsp k (by simp at hk ⊢; omega))

/-- C2: amended.  With IME set, the dispatcher does not service only the
lowest pending interrupt: every bit i in 0..4 set in both IF and IE is
serviced, in ascending order (each service clearing IME and IF bit i,
pushing the then-current PC high then low with SP decrementing twice, and
setting PC to 0x40/0x48/0x50 for i=0/1/2, 0x60 for i=4, and leaving PC
unchanged for i=3, which has no vector case) — provided the pushed bytes do
not land on the IF (FF0F) or IE (FFFF) cells themselves. -/
theorem c2_amended (e : Emulator)
    (hIME : e.cpu.interrupt_master_enable = true)
    (hsp : ∀ k, k < 10 →
        push_addr e.cpu.reg_SP k ≠ 0xFF0F ∧ push_addr e.cpu.reg_SP k ≠ 0xFFFF) :
    Emulator.do_interrupts e = do_interrupts_amended e := by
  unfold Emulator.do_interrupts do_interrupts_amended
  rw [hIME]
  simp only [if_true]
  by_cases hIF : e.memory.zget 0x0F > 0
  · rw [if_pos hIF]
    exact interrupt_loop_eq (List.range 5) e (by intro i hi; simpa using hi)
      (List.nodup_range 5) (by simp) (by simpa using hsp)
  · rw [if_neg hIF]
    have hz : e.memory.ZRAM 0x0F % 256 = 0 := by
      unfold Memory.zget at hIF
      omega
    have hempty : (List.range 5).filter (fun i =>
        is_bit_set (e.memory.ZRAM 0x0F) i && is_bit_set (e.memory.ZRAM 0xFF) i) = [] := by
      apply List.filter_eq_nil_iff.mpr
      intro i _
      simp [is_bit_set, hz]
    rw [hempty]
    rfl

/-- C2 witness: the refinement applied to the concrete two-pending state. -/
theorem c2_amended_witness :
    Emulator.do_interrupts c2_state = do_interrupts_amended c2_state :=
  c2_amended c2_state rfl (by decide)
